import Mathlib

/-!
# Verification of `api_yamdb/reviews/models.py`

A shallow embedding of the Django model layer of the `api_yamdb` review
application: the five model classes (`Category`, `Genre`, `Title`, `Review`,
`Comment`), their declared field validators and table constraints, the
`on_delete` semantics of their foreign keys, and the one behavioral method
`Review.get_mean_score`.

The database is modelled as lists of rows.  Row mutation happens only through
the insert/delete operations below, each of which enforces exactly the
constraints declared in `models.py` (primary-key freshness, foreign keys,
`UniqueConstraint`, `CheckConstraint`, and the `CASCADE` / `SET_NULL`
`on_delete` behavior declared on each foreign key).  `Reachable` is the set of
database states obtainable from the empty database by those operations.
-/

namespace YaMDb

/-! ## Field validators (`django.core.validators`)

A Django validator raises `ValidationError` on a bad value and returns
nothing otherwise; this is modelled with `Except`, the error carrying the
validator's message. -/

/-- The message of a Django `ValidationError`. -/
abbrev ValidationError := String

/-- The stock message of a failing `MinValueValidator`. -/
def minValueMsg : ValidationError :=
  "Ensure this value is greater than or equal to the limit."

/-- The stock message of a failing `MaxValueValidator`. -/
def maxValueMsg : ValidationError :=
  "Ensure this value is less than or equal to the limit."

/-- The validator `django.core.validators.MinValueValidator limit`: raises
iff the value is strictly below the limit. -/
def minValueValidator (limit value : Int) : Except ValidationError Unit :=
  if value < limit then .error minValueMsg else .ok ()

/-- The validator `django.core.validators.MaxValueValidator limit` with
message `msg`: raises iff the value is strictly above the limit. -/
def maxValueValidator (limit value : Int) (msg : ValidationError) :
    Except ValidationError Unit :=
  if limit < value then .error msg else .ok ()

/-- The field `Review.score` is an `IntegerField` with
`validators=[MinValueValidator(1), MaxValueValidator(10)]` (models.py
lines 124-127).  Running the field's validators on a candidate score:
the validators run in order and the first failure raises. -/
def validateReviewScore (score : Int) : Except ValidationError Unit :=
  match minValueValidator 1 score with
  | .error e => .error e
  | .ok _ => maxValueValidator 10 score maxValueMsg

/-- The error message a `PositiveIntegerField` produces on a negative value. -/
def positiveFieldMsg : ValidationError :=
  "Ensure this value is greater than or equal to 0."

/-- The message declared on `Title.year`'s `MaxValueValidator`
(models.py line 79). -/
def futureTitleMsg : ValidationError :=
  "Нельзя добавить произведения из будущего"

/-- The validator configuration of the field
`Title.year = models.PositiveIntegerField(validators=[MaxValueValidator(date.today().year, ...)])`
(models.py lines 74-82).  The argument `date.today().year` is evaluated once,
when the class body runs at module import, and the resulting number is stored
inside the `MaxValueValidator`; only that stored bound survives. -/
structure TitleYearField where
  maxYear : Int
deriving DecidableEq

/-- Building the `Title.year` field at module import: the value of
`date.today().year` at that moment becomes the stored bound of the
`MaxValueValidator`. -/
def titleYearField (yearAtImport : Int) : TitleYearField :=
  { maxYear := yearAtImport }

/-- Running validation of `Title.year`: the `PositiveIntegerField` base check
(value must be >= 0), then the declared `MaxValueValidator` against the
stored bound. -/
def validateTitleYear (f : TitleYearField) (value : Int) :
    Except ValidationError Unit :=
  if value < 0 then .error positiveFieldMsg
  else maxValueValidator f.maxYear value futureTitleMsg

/-- Running `Title.year` validation at a moment when the calendar reads
`yearAtValidation`.  The code consults no clock during validation — the only
call to `date.today()` happened in the class body at import — so the
parameter is passed but never read, exactly as in the source. -/
def validateTitleYearAt (f : TitleYearField) (_yearAtValidation value : Int) :
    Except ValidationError Unit :=
  validateTitleYear f value

/-! ## Rows

Primary keys are `Nat` (Django's implicit autoincrement `id`).  Foreign keys
store the primary key of the referenced row; the nullable `Title.category`
stores an `Option`.  `User` comes from `django.contrib.auth` and is external
to this file, so authors are bare user ids. -/

/-- A `Category` row: name and unique slug (models.py lines 15-38). -/
structure Category where
  id : Nat
  name : String
  slug : String
deriving DecidableEq

/-- A `Genre` row: name and unique slug (models.py lines 41-61). -/
structure Genre where
  id : Nat
  name : String
  slug : String
deriving DecidableEq

/-- A `Title` row: name, year, optional description, many-to-many genre ids,
nullable category foreign key (models.py lines 64-107). -/
structure Title where
  id : Nat
  name : String
  year : Int
  description : String
  genre : List Nat
  category : Option Nat
deriving DecidableEq

/-- A `Review` row: foreign keys to `Title` and author, text, integer score,
publication timestamp abstracted away (models.py lines 110-155). -/
structure Review where
  id : Nat
  title : Nat
  author : Nat
  text : String
  score : Int
deriving DecidableEq

/-- A `Comment` row: foreign keys to author and `Review`, text
(models.py lines 158-184). -/
structure Comment where
  id : Nat
  author : Nat
  review : Nat
  text : String
deriving DecidableEq

/-- The database state: one list of rows per model. -/
structure DB where
  categories : List Category
  genres : List Genre
  titles : List Title
  reviews : List Review
  comments : List Comment
deriving DecidableEq

/-- The freshly migrated, empty database. -/
def emptyDB : DB := ⟨[], [], [], [], []⟩

/-! ## `Review.get_mean_score`

```python
def get_mean_score(self, title_id):
    title = get_object_or_404(Title, pk=title_id)
    try:
        return round(
            Review.objects.filter(title=title).aggregate(
                models.Avg("score")
            )
        )
    except:
        return 0
```

`QuerySet.aggregate` returns a *dict* `{"score__avg": avg-or-None}`, and
Python's `round()` raises `TypeError` on a dict (dicts define no
`__round__`).  The `get_object_or_404` call sits *outside* the `try`, so a
missing title raises `Http404` past the bare `except`. -/

/-- The Python values that flow through `get_mean_score`'s `try` block:
either a number, or the single-key dict `{"score__avg": v}` that
`aggregate(Avg("score"))` returns (`v` is `None` on an empty queryset). -/
inductive PyObj where
  | int : Int → PyObj
  | avgDict : Option Rat → PyObj
deriving DecidableEq

/-- The exceptions arising in `get_mean_score`: `Http404` from
`get_object_or_404`, `TypeError` from `round()` on a non-number. -/
inductive PyError where
  | http404 : PyError
  | typeError : PyError
deriving DecidableEq

/-- `Review.objects.filter(title=title).aggregate(models.Avg("score"))`:
the dict mapping `"score__avg"` to the mean of the matching scores,
`None` when no review matches. -/
def aggregateAvgScore (reviews : List Review) (titleId : Nat) : PyObj :=
  let scores := (reviews.filter (fun r => r.title = titleId)).map
    (fun r => (r.score : Rat))
  .avgDict (if scores.isEmpty then none
            else some (scores.foldr (· + ·) 0 / (scores.length : Rat)))

/-- Python's built-in `round` on one argument: the identity on an int,
a `TypeError` on a dict. -/
def pyRound : PyObj → Except PyError Int
  | .int n => .ok n
  | .avgDict _ => .error .typeError

/-- `Review.get_mean_score(title_id)` (models.py lines 146-155).
`get_object_or_404` runs before the `try`; inside the `try` the aggregate
dict is passed to `round`, and any exception there is swallowed by the bare
`except`, which returns `0`.  The `Except` result is the method's outcome:
`.error e` is an exception propagating to the caller. -/
def get_mean_score (db : DB) (title_id : Nat) : Except PyError Int :=
  match db.titles.find? (fun t => t.id = title_id) with
  | none => .error .http404
  | some _title =>
      match pyRound (aggregateAvgScore db.reviews title_id) with
      | .ok v => .ok v
      | .error _ => .ok 0

/-! ## Database operations

Each insert enforces exactly the row-level constraints declared in
`models.py` and the framework-level ones Django always applies: primary-key
freshness (autoincrement ids never repeat), foreign-key existence, the
declared `UniqueConstraint` / unique slugs, and the declared
`CheckConstraint`.  `none` models the `IntegrityError`: the transaction is
rolled back and the state is unchanged.  Each delete applies the `on_delete`
behavior declared on the foreign keys pointing at the deleted row. -/

/-- INSERT of a `Category` row (`slug` is declared `unique=True`). -/
def insertCategory (db : DB) (c : Category) : Option DB :=
  if db.categories.any (fun c0 => c0.id = c.id || c0.slug = c.slug) then none
  else some { db with categories := c :: db.categories }

/-- INSERT of a `Genre` row (`slug` is declared `unique=True`). -/
def insertGenre (db : DB) (g : Genre) : Option DB :=
  if db.genres.any (fun g0 => g0.id = g.id || g0.slug = g.slug) then none
  else some { db with genres := g :: db.genres }

/-- INSERT of a `Title` row: fresh primary key, the nullable `category`
foreign key must reference an existing `Category` when set, and every
many-to-many `genre` entry must reference an existing `Genre`. -/
def insertTitle (db : DB) (t : Title) : Option DB :=
  if db.titles.any (fun t0 => t0.id = t.id) then none
  else if t.category.any (fun cid => !db.categories.any (fun c => c.id = cid))
    then none
  else if !t.genre.all (fun gid => db.genres.any (fun g => g.id = gid))
    then none
  else some { db with titles := t :: db.titles }

/-- INSERT of a `Review` row: fresh primary key, foreign key to an existing
`Title`, and the declared
`UniqueConstraint(fields=["author", "title"], name="unique_author_title_pair")`
(models.py lines 135-139): no second review by the same author for the same
title. -/
def insertReview (db : DB) (r : Review) : Option DB :=
  if db.reviews.any (fun r0 => r0.id = r.id) then none
  else if db.reviews.any (fun r0 => r0.author = r.author && r0.title = r.title)
    then none
  else if !db.titles.any (fun t => t.id = r.title) then none
  else some { db with reviews := r :: db.reviews }

/-- INSERT of a `Comment` row: fresh primary key, foreign key to an existing
`Review`, and the declared
`CheckConstraint(check=~Q(author=F("review__author")), name="self_commenting_check")`
(models.py lines 173-178): the comment's author must differ from the
author of the commented review. -/
def insertComment (db : DB) (c : Comment) : Option DB :=
  if db.comments.any (fun c0 => c0.id = c.id) then none
  else match db.reviews.find? (fun r => r.id = c.review) with
    | none => none
    | some r =>
        if c.author = r.author then none
        else some { db with comments := c :: db.comments }

/-- The row update `SET_NULL` performs on one title when category `cid` is
deleted: null the reference if it pointed at `cid`, touch nothing else. -/
def setNullCategory (cid : Nat) (t : Title) : Title :=
  if t.category = some cid then { t with category := none } else t

/-- DELETE of a `Category`: `Title.category` declares
`on_delete=models.SET_NULL` (models.py line 95), so every title referencing
the deleted category has its `category` field set to null; nothing else
about any title changes and no title is deleted. -/
def deleteCategory (db : DB) (cid : Nat) : DB :=
  { db with
    categories := db.categories.filter (fun c => c.id ≠ cid),
    titles := db.titles.map (setNullCategory cid) }

/-- DELETE of a `Title`: `Review.title` declares `on_delete=models.CASCADE`
(models.py line 114), so every review of the title is deleted, and the
cascade continues through `Comment.review` (models.py line 163): comments on
the deleted reviews are deleted too. -/
def deleteTitle (db : DB) (tid : Nat) : DB :=
  let dead := db.reviews.filter (fun r => r.title = tid)
  { db with
    titles := db.titles.filter (fun t => t.id ≠ tid),
    reviews := db.reviews.filter (fun r => r.title ≠ tid),
    comments := db.comments.filter
      (fun c => !dead.any (fun r => r.id = c.review)) }

/-- DELETE of a `Review`: `Comment.review` declares
`on_delete=models.CASCADE` (models.py line 163), so every comment on the
review is deleted with it. -/
def deleteReview (db : DB) (rid : Nat) : DB :=
  { db with
    reviews := db.reviews.filter (fun r => r.id ≠ rid),
    comments := db.comments.filter (fun c => c.review ≠ rid) }

/-- DELETE of a `Comment`: nothing references comments, so only the row
itself goes away. -/
def deleteComment (db : DB) (cid : Nat) : DB :=
  { db with comments := db.comments.filter (fun c => c.id ≠ cid) }

/-- The database states reachable from the empty database through the
operations above. -/
inductive Reachable : DB → Prop where
  | empty : Reachable emptyDB
  | insCategory {db db1 : DB} (c : Category) :
      Reachable db → insertCategory db c = some db1 → Reachable db1
  | insGenre {db db1 : DB} (g : Genre) :
      Reachable db → insertGenre db g = some db1 → Reachable db1
  | insTitle {db db1 : DB} (t : Title) :
      Reachable db → insertTitle db t = some db1 → Reachable db1
  | insReview {db db1 : DB} (r : Review) :
      Reachable db → insertReview db r = some db1 → Reachable db1
  | insComment {db db1 : DB} (c : Comment) :
      Reachable db → insertComment db c = some db1 → Reachable db1
  | delCategory {db : DB} (cid : Nat) :
      Reachable db → Reachable (deleteCategory db cid)
  | delTitle {db : DB} (tid : Nat) :
      Reachable db → Reachable (deleteTitle db tid)
  | delReview {db : DB} (rid : Nat) :
      Reachable db → Reachable (deleteReview db rid)
  | delComment {db : DB} (cid : Nat) :
      Reachable db → Reachable (deleteComment db cid)

/-! ## Invariants of reachable states -/

/-- Primary keys of reviews never repeat (Django autoincrement). -/
def ReviewIdsDistinct (db : DB) : Prop :=
  db.reviews.Pairwise (fun a b => a.id ≠ b.id)

/-- The `unique_author_title_pair` constraint as a state invariant: no two
review rows share the same (author, title) pair. -/
def ReviewPairsDistinct (db : DB) : Prop :=
  db.reviews.Pairwise (fun a b => ¬(a.author = b.author ∧ a.title = b.title))

/-- The `self_commenting_check` constraint as a state invariant: no comment
row has the same author as the review it comments on. -/
def NoSelfComment (db : DB) : Prop :=
  ∀ c ∈ db.comments, ∀ r ∈ db.reviews, r.id = c.review → c.author ≠ r.author

/-- Referential integrity of `Review.title`: every review points at an
existing title. -/
def ReviewFKIntact (db : DB) : Prop :=
  ∀ r ∈ db.reviews, ∃ t ∈ db.titles, t.id = r.title

/-- Referential integrity of `Comment.review`: every comment points at an
existing review. -/
def CommentFKIntact (db : DB) : Prop :=
  ∀ c ∈ db.comments, ∃ r ∈ db.reviews, r.id = c.review

/-- The conjunction of the state invariants, proved inductive below. -/
def Inv (db : DB) : Prop :=
  ReviewIdsDistinct db ∧ ReviewPairsDistinct db ∧ NoSelfComment db ∧
    ReviewFKIntact db ∧ CommentFKIntact db

/-- In a list of reviews with pairwise-distinct ids, a shared id forces the
same row. -/
theorem review_id_inj {l : List Review}
    (hl : l.Pairwise (fun a b => a.id ≠ b.id)) {a b : Review}
    (ha : a ∈ l) (hb : b ∈ l) (hid : a.id = b.id) : a = b := by
  induction l with
  | nil => cases ha
  | cons x xs ih =>
      rw [List.pairwise_cons] at hl
      cases ha with
      | head =>
          cases hb with
          | head => rfl
          | tail _ hb => exact absurd hid (hl.1 b hb)
      | tail _ ha =>
          cases hb with
          | head => exact absurd hid.symm (hl.1 a ha)
          | tail _ hb => exact ih hl.2 ha hb

/-- Successful `insertCategory` only prepends the row. -/
theorem insertCategory_some {db db1 : DB} {c : Category}
    (h : insertCategory db c = some db1) :
    db1 = { db with categories := c :: db.categories } := by
  unfold insertCategory at h
  split at h
  · exact Option.noConfusion h
  · exact (Option.some.inj h).symm

/-- Successful `insertGenre` only prepends the row. -/
theorem insertGenre_some {db db1 : DB} {g : Genre}
    (h : insertGenre db g = some db1) :
    db1 = { db with genres := g :: db.genres } := by
  unfold insertGenre at h
  split at h
  · exact Option.noConfusion h
  · exact (Option.some.inj h).symm

/-- Successful `insertTitle` only prepends the row. -/
theorem insertTitle_some {db db1 : DB} {t : Title}
    (h : insertTitle db t = some db1) :
    db1 = { db with titles := t :: db.titles } := by
  unfold insertTitle at h
  split at h
  · exact Option.noConfusion h
  · split at h
    · exact Option.noConfusion h
    · split at h
      · exact Option.noConfusion h
      · exact (Option.some.inj h).symm

/-- Characterization of a successful `insertReview`: the row is prepended,
and the primary-key, unique-constraint and foreign-key checks all passed. -/
theorem insertReview_some {db db1 : DB} {r : Review}
    (h : insertReview db r = some db1) :
    db1 = { db with reviews := r :: db.reviews } ∧
      (∀ r0 ∈ db.reviews, r0.id ≠ r.id) ∧
      (∀ r0 ∈ db.reviews, ¬(r0.author = r.author ∧ r0.title = r.title)) ∧
      (∃ t ∈ db.titles, t.id = r.title) := by
  unfold insertReview at h
  split at h
  · exact Option.noConfusion h
  next hc1 =>
    split at h
    · exact Option.noConfusion h
    next hc2 =>
      split at h
      · exact Option.noConfusion h
      next hc3 =>
        refine ⟨(Option.some.inj h).symm, ?_, ?_, ?_⟩
        · intro r0 h0 hid
          exact hc1 (by simpa [List.any_eq_true] using ⟨r0, h0, hid⟩)
        · intro r0 h0 hdup
          exact hc2 (by simpa [List.any_eq_true] using ⟨r0, h0, hdup⟩)
        · simpa [List.any_eq_true] using hc3

/-- Characterization of a successful `insertComment`: the row is prepended,
and the commented review exists with a different author. -/
theorem insertComment_some {db db1 : DB} {c : Comment}
    (h : insertComment db c = some db1) :
    db1 = { db with comments := c :: db.comments } ∧
      ∃ r ∈ db.reviews, r.id = c.review ∧ c.author ≠ r.author := by
  unfold insertComment at h
  split at h
  · exact Option.noConfusion h
  · split at h
    · exact Option.noConfusion h
    next r1 hf =>
      split at h
      · exact Option.noConfusion h
      next hne =>
        refine ⟨(Option.some.inj h).symm, r1,
          List.mem_of_find?_eq_some hf, ?_, hne⟩
        simpa using List.find?_some hf

/-- The empty database satisfies the invariants. -/
theorem inv_emptyDB : Inv emptyDB := by
  refine ⟨List.Pairwise.nil, List.Pairwise.nil, ?_, ?_, ?_⟩
  · intro c hc; cases hc
  · intro r hr; cases hr
  · intro c hc; cases hc

/-- `insertCategory` preserves the invariants. -/
theorem inv_insertCategory {db db1 : DB} {c : Category}
    (h : insertCategory db c = some db1) (hi : Inv db) : Inv db1 := by
  rw [insertCategory_some h]; exact hi

/-- `insertGenre` preserves the invariants. -/
theorem inv_insertGenre {db db1 : DB} {g : Genre}
    (h : insertGenre db g = some db1) (hi : Inv db) : Inv db1 := by
  rw [insertGenre_some h]; exact hi

/-- `insertTitle` preserves the invariants. -/
theorem inv_insertTitle {db db1 : DB} {t : Title}
    (h : insertTitle db t = some db1) (hi : Inv db) : Inv db1 := by
  obtain ⟨h1, h2, h3, h4, h5⟩ := hi
  rw [insertTitle_some h]
  refine ⟨h1, h2, h3, ?_, h5⟩
  intro r hr
  obtain ⟨t0, ht0, hid⟩ := h4 r hr
  exact ⟨t0, List.mem_cons_of_mem _ ht0, hid⟩

/-- `insertReview` preserves the invariants. -/
theorem inv_insertReview {db db1 : DB} {r : Review}
    (h : insertReview db r = some db1) (hi : Inv db) : Inv db1 := by
  obtain ⟨h1, h2, h3, h4, h5⟩ := hi
  obtain ⟨hdb, hfresh, huniq, ht⟩ := insertReview_some h
  subst hdb
  refine ⟨?_, ?_, ?_, ?_, ?_⟩
  · refine List.pairwise_cons.2 ⟨?_, h1⟩
    intro r0 h0 he
    exact hfresh r0 h0 he.symm
  · refine List.pairwise_cons.2 ⟨?_, h2⟩
    intro r0 h0 hdup
    exact huniq r0 h0 ⟨hdup.1.symm, hdup.2.symm⟩
  · intro c hc r0 hr0 hid
    cases hr0 with
    | head =>
        obtain ⟨r1, hr1, hid1⟩ := h5 c hc
        exact absurd (hid1.trans hid.symm) (hfresh r1 hr1)
    | tail _ hr0 => exact h3 c hc r0 hr0 hid
  · intro r0 hr0
    cases hr0 with
    | head => exact ht
    | tail _ hr0 => exact h4 r0 hr0
  · intro c hc
    obtain ⟨r1, hr1, hid1⟩ := h5 c hc
    exact ⟨r1, List.mem_cons_of_mem _ hr1, hid1⟩

/-- `insertComment` preserves the invariants. -/
theorem inv_insertComment {db db1 : DB} {c : Comment}
    (h : insertComment db c = some db1) (hi : Inv db) : Inv db1 := by
  obtain ⟨h1, h2, h3, h4, h5⟩ := hi
  obtain ⟨hdb, r1, hr1, hid1, hne⟩ := insertComment_some h
  subst hdb
  refine ⟨h1, h2, ?_, h4, ?_⟩
  · intro c0 hc0 r0 hr0 hid
    cases hc0 with
    | head =>
        have heq : r0 = r1 := review_id_inj h1 hr0 hr1 (hid.trans hid1.symm)
        rw [heq]
        exact hne
    | tail _ hc0 => exact h3 c0 hc0 r0 hr0 hid
  · intro c0 hc0
    cases hc0 with
    | head => exact ⟨r1, hr1, hid1⟩
    | tail _ hc0 => exact h5 c0 hc0

/-- `deleteCategory` preserves the invariants (titles keep their ids). -/
theorem inv_deleteCategory {db : DB} (cid : Nat) (hi : Inv db) :
    Inv (deleteCategory db cid) := by
  obtain ⟨h1, h2, h3, h4, h5⟩ := hi
  refine ⟨h1, h2, h3, ?_, h5⟩
  intro r hr
  obtain ⟨t, ht, hid⟩ := h4 r hr
  refine ⟨setNullCategory cid t, List.mem_map_of_mem _ ht, ?_⟩
  unfold setNullCategory
  split <;> exact hid

/-- `deleteTitle` preserves the invariants: the cascade removes exactly the
reviews of the title and the comments on those reviews. -/
theorem inv_deleteTitle {db : DB} (tid : Nat) (hi : Inv db) :
    Inv (deleteTitle db tid) := by
  obtain ⟨h1, h2, h3, h4, h5⟩ := hi
  refine ⟨h1.sublist (List.filter_sublist _),
    h2.sublist (List.filter_sublist _), ?_, ?_, ?_⟩
  · intro c hc r hr hid
    exact h3 c (List.mem_of_mem_filter hc) r (List.mem_of_mem_filter hr) hid
  · intro r hr
    obtain ⟨hrm, hrt⟩ := List.mem_filter.1 hr
    have hrt2 : r.title ≠ tid := by simpa using hrt
    obtain ⟨t, ht, hid⟩ := h4 r hrm
    exact ⟨t, List.mem_filter.2 ⟨ht, by simp [hid, hrt2]⟩, hid⟩
  · intro c hc
    obtain ⟨hcm, hcd⟩ := List.mem_filter.1 hc
    obtain ⟨r, hrm, hid⟩ := h5 c hcm
    have hdead : ∀ r0 ∈ db.reviews, r0.title = tid → r0.id ≠ c.review := by
      intro r0 h0 ht0 hid0
      have hany : (List.filter (fun r => decide (r.title = tid))
          db.reviews).any (fun r => decide (r.id = c.review)) = true := by
        simp only [List.any_eq_true, List.mem_filter, decide_eq_true_eq]
        exact ⟨r0, ⟨h0, ht0⟩, hid0⟩
      rw [hany] at hcd
      exact Bool.noConfusion hcd
    have hrt : r.title ≠ tid := fun he => hdead r hrm he hid
    exact ⟨r, List.mem_filter.2 ⟨hrm, by simpa using hrt⟩, hid⟩

/-- `deleteReview` preserves the invariants: the cascade removes exactly the
comments on the review. -/
theorem inv_deleteReview {db : DB} (rid : Nat) (hi : Inv db) :
    Inv (deleteReview db rid) := by
  obtain ⟨h1, h2, h3, h4, h5⟩ := hi
  refine ⟨h1.sublist (List.filter_sublist _),
    h2.sublist (List.filter_sublist _), ?_, ?_, ?_⟩
  · intro c hc r hr hid
    exact h3 c (List.mem_of_mem_filter hc) r (List.mem_of_mem_filter hr) hid
  · intro r hr
    exact h4 r (List.mem_of_mem_filter hr)
  · intro c hc
    obtain ⟨hcm, hcr⟩ := List.mem_filter.1 hc
    have hcr2 : c.review ≠ rid := by simpa using hcr
    obtain ⟨r, hrm, hid⟩ := h5 c hcm
    exact ⟨r, List.mem_filter.2 ⟨hrm, by simp [hid, hcr2]⟩, hid⟩

/-- `deleteComment` preserves the invariants. -/
theorem inv_deleteComment {db : DB} (cid : Nat) (hi : Inv db) :
    Inv (deleteComment db cid) := by
  obtain ⟨h1, h2, h3, h4, h5⟩ := hi
  refine ⟨h1, h2, ?_, h4, ?_⟩
  · intro c hc r hr hid
    exact h3 c (List.mem_of_mem_filter hc) r hr hid
  · intro c hc
    exact h5 c (List.mem_of_mem_filter hc)

/-- Every reachable database state satisfies the invariants. -/
theorem reachable_inv {db : DB} (h : Reachable db) : Inv db := by
  induction h with
  | empty => exact inv_emptyDB
  | insCategory c _ hs ih => exact inv_insertCategory hs ih
  | insGenre g _ hs ih => exact inv_insertGenre hs ih
  | insTitle t _ hs ih => exact inv_insertTitle hs ih
  | insReview r _ hs ih => exact inv_insertReview hs ih
  | insComment c _ hs ih => exact inv_insertComment hs ih
  | delCategory cid _ ih => exact inv_deleteCategory cid ih
  | delTitle tid _ ih => exact inv_deleteTitle tid ih
  | delReview rid _ ih => exact inv_deleteReview rid ih
  | delComment cid _ ih => exact inv_deleteComment cid ih

/-- What the specification says `get_mean_score` computes, written from the
spec's words for comparison with the code: the arithmetic mean of the scores
of the title's reviews, rounded to the nearest integer (`none` when the
title has no review). -/
def meanScoreSpec (db : DB) (titleId : Nat) : Option Int :=
  let scores := (db.reviews.filter (fun r => r.title = titleId)).map
    (fun r => (r.score : Rat))
  if scores.isEmpty then none
  else some (round (scores.foldr (· + ·) 0 / (scores.length : Rat)))

/-! Concrete rows and reachable states used to instantiate the theorems. -/

/-- A sample title (id 1, year 2000, no category). -/
def titleA : Title := ⟨1, "T", 2000, "", [], none⟩

/-- A sample review: user 7 scores title 1 with 5. -/
def reviewA : Review := ⟨1, 1, 7, "good", 5⟩

/-- A sample comment: user 8 comments on review 1. -/
def commentA : Comment := ⟨1, 8, 1, "reply"⟩

/-- A sample category (id 1). -/
def categoryA : Category := ⟨1, "Films", "films"⟩

/-- A sample title referencing category 1. -/
def titleB : Title := ⟨2, "U", 1999, "", [], some 1⟩

/-- A database holding just `titleA`. -/
def dbT : DB := ⟨[], [], [titleA], [], []⟩

/-- A database holding `titleA` and `reviewA`. -/
def dbTR : DB := ⟨[], [], [titleA], [reviewA], []⟩

/-- A database holding `titleA`, `reviewA` and `commentA`. -/
def dbTRC : DB := ⟨[], [], [titleA], [reviewA], [commentA]⟩

/-- A database holding `categoryA` and `titleB` (which references it). -/
def dbCat : DB := ⟨[categoryA], [], [titleB], [], []⟩

theorem dbT_reachable : Reachable dbT :=
  Reachable.insTitle titleA Reachable.empty rfl

theorem dbTR_reachable : Reachable dbTR :=
  Reachable.insReview reviewA dbT_reachable rfl

theorem dbTRC_reachable : Reachable dbTRC :=
  Reachable.insComment commentA dbTR_reachable rfl

theorem dbCat_reachable : Reachable dbCat :=
  Reachable.insTitle titleB
    (Reachable.insCategory categoryA Reachable.empty rfl) rfl

/-- Helper: `Title.year` validation succeeds exactly on values between 0 and
the bound stored in the field. -/
theorem validateTitleYear_ok_iff (b y : Int) :
    validateTitleYear (titleYearField b) y = Except.ok () ↔ 0 ≤ y ∧ y ≤ b := by
  unfold validateTitleYear titleYearField maxValueValidator
  dsimp only
  by_cases h1 : y < 0
  · simp [h1]
  · by_cases h2 : b < y
    · simp [h1, h2]
    · simp [h1, h2]
      omega

/-! Claim theorems. -/

/-- C1 (code evaluated at the failing input): for the database holding one
title (id 1) with a single review of score 5, the spec-side mean is 5, but
`get_mean_score` returns 0 — `round()` is applied to the aggregate *dict*,
the resulting `TypeError` is swallowed by the bare `except`, and the
default 0 comes back instead of the mean. -/
theorem get_mean_score_bug :
    get_mean_score dbTR 1 = Except.ok 0 ∧ meanScoreSpec dbTR 1 = some 5 := by
  refine ⟨rfl, ?_⟩
  unfold meanScoreSpec dbTR reviewA
  norm_num

/-- C2 (counterexample): `get_mean_score` does propagate an exception — on
the empty database, a lookup of title 1 raises `Http404` from
`get_object_or_404`, which sits before the `try` and is not caught; the
method does not return 0 there. -/
theorem get_mean_score_counterexample :
    get_mean_score emptyDB 1 = Except.error PyError.http404 := rfl

/-- C2 (amended): exceptions raised inside the `try` block are all caught
and 0 is returned — so for any existing title the method returns normally
(always with 0) — but the title lookup runs before the `try`, so for a
missing title an `Http404` exception propagates to the caller. -/
theorem get_mean_score_exception_behavior (db : DB) (tid : Nat) :
    (∀ t ∈ db.titles, t.id = tid → get_mean_score db tid = Except.ok 0) ∧
    ((∀ t ∈ db.titles, t.id ≠ tid) →
      get_mean_score db tid = Except.error PyError.http404) := by
  constructor
  · intro t ht hid
    unfold get_mean_score
    cases hf : db.titles.find? (fun t0 => t0.id = tid) with
    | none =>
        rw [List.find?_eq_none] at hf
        exact absurd (by simpa using hid) (hf t ht)
    | some t1 => rfl
  · intro hall
    unfold get_mean_score
    cases hf : db.titles.find? (fun t0 => t0.id = tid) with
    | none => rfl
    | some t1 =>
        have h1 := List.find?_some hf
        have h2 := List.mem_of_find?_eq_some hf
        exact absurd (by simpa using h1) (hall t1 h2)

/-- Witness for C2 (amended): on the database with title 1 and one review,
the method returns 0 and raises nothing. -/
theorem get_mean_score_exception_behavior_witness :
    get_mean_score dbTR 1 = Except.ok 0 :=
  (get_mean_score_exception_behavior dbTR 1).1 titleA (by decide) rfl

/-- C3: in every reachable database state, no comment row has the same
author as the review it comments on, and an INSERT of a comment whose
author equals the commented review's author is rejected by the
`self_commenting_check` constraint (`none`: the state is unchanged). -/
theorem no_self_comment_invariant (db : DB) (h : Reachable db) :
    (∀ c ∈ db.comments, ∀ r ∈ db.reviews, r.id = c.review →
      c.author ≠ r.author) ∧
    (∀ c : Comment, (∃ r ∈ db.reviews, r.id = c.review ∧ c.author = r.author) →
      insertComment db c = none) := by
  obtain ⟨h1, h2, h3, h4, h5⟩ := reachable_inv h
  refine ⟨h3, ?_⟩
  rintro c ⟨r, hr, hid, hauth⟩
  unfold insertComment
  split
  · rfl
  · cases hf : db.reviews.find? (fun r0 => r0.id = c.review) with
    | none => rfl
    | some r1 =>
        have hr1m := List.mem_of_find?_eq_some hf
        have hid1 : r1.id = c.review := by simpa using List.find?_some hf
        have heq : r = r1 := review_id_inj h1 hr hr1m (hid.trans hid1.symm)
        have hca : c.author = r1.author := heq ▸ hauth
        simp [hca]

/-- Witness for C3: inserting a self-comment by user 7 on their own review
is rejected. -/
theorem no_self_comment_invariant_witness :
    insertComment dbTRC ⟨2, 7, 1, "self"⟩ = none :=
  (no_self_comment_invariant dbTRC dbTRC_reachable).2 ⟨2, 7, 1, "self"⟩
    ⟨reviewA, by decide, rfl, rfl⟩

/-- C4: the `Review.score` field validators accept an integer score exactly
when it lies in [1, 10]. -/
theorem review_score_validation (s : Int) :
    validateReviewScore s = Except.ok () ↔ 1 ≤ s ∧ s ≤ 10 := by
  unfold validateReviewScore minValueValidator maxValueValidator
  by_cases h1 : s < 1
  · simp [h1]
  · by_cases h2 : 10 < s
    · simp [h1, h2]
    · simp [h1, h2]
      omega

/-- Witness for C4: score 5 passes validation. -/
theorem review_score_validation_witness :
    validateReviewScore 5 = Except.ok () :=
  (review_score_validation 5).2 (by decide)

/-- C5: in every reachable database state no two review rows share the same
(author, title) pair, and an INSERT of a second review by the same author
for the same title is rejected by `unique_author_title_pair`
(`none`: the state is unchanged). -/
theorem unique_author_title_invariant (db : DB) (h : Reachable db) :
    db.reviews.Pairwise (fun a b => ¬(a.author = b.author ∧ a.title = b.title)) ∧
    (∀ r : Review, (∃ r0 ∈ db.reviews, r0.author = r.author ∧ r0.title = r.title) →
      insertReview db r = none) := by
  refine ⟨(reachable_inv h).2.1, ?_⟩
  rintro r ⟨r0, h0, ha, ht⟩
  unfold insertReview
  split
  · rfl
  next hc1 =>
    split
    · rfl
    next hc2 =>
      exfalso
      apply hc2
      simp only [List.any_eq_true, Bool.and_eq_true, decide_eq_true_eq]
      exact ⟨r0, h0, ha, ht⟩

/-- Witness for C5: a second review by user 7 on title 1 is rejected. -/
theorem unique_author_title_invariant_witness :
    insertReview dbTR ⟨2, 1, 7, "again", 8⟩ = none :=
  (unique_author_title_invariant dbTR dbTR_reachable).2 ⟨2, 1, 7, "again", 8⟩
    ⟨reviewA, by decide, rfl, rfl⟩

/-- C6: `Title.year` validation accepts exactly the non-negative years not
exceeding the year the model captured (`date.today().year` at class
definition): any later year is rejected, any year in [0, bound] passes. -/
theorem title_year_validation (currentYear y : Int) :
    validateTitleYear (titleYearField currentYear) y = Except.ok () ↔
      0 ≤ y ∧ y ≤ currentYear :=
  validateTitleYear_ok_iff currentYear y

/-- Witness for C6: with bound 2026, year 2000 passes validation. -/
theorem title_year_validation_witness :
    validateTitleYear (titleYearField 2026) 2000 = Except.ok () :=
  (title_year_validation 2026 2000).2 (by decide)

/-- C7: deleting a category keeps every title (same count), nulls exactly
the `category` references that pointed at it while preserving every other
field of every title, leaves reviews, comments and genres untouched, and
removes exactly the deleted category row. -/
theorem delete_category_set_null (db : DB) (cid : Nat) :
    ((deleteCategory db cid).titles.length = db.titles.length) ∧
    (∀ t ∈ db.titles, ∃ u ∈ (deleteCategory db cid).titles,
      u.id = t.id ∧ u.name = t.name ∧ u.year = t.year ∧
      u.description = t.description ∧ u.genre = t.genre ∧
      u.category = (if t.category = some cid then none else t.category)) ∧
    ((deleteCategory db cid).reviews = db.reviews) ∧
    ((deleteCategory db cid).comments = db.comments) ∧
    ((deleteCategory db cid).genres = db.genres) ∧
    (∀ c : Category, c ∈ (deleteCategory db cid).categories ↔
      c ∈ db.categories ∧ c.id ≠ cid) := by
  refine ⟨List.length_map _ _, ?_, rfl, rfl, rfl, ?_⟩
  · intro t ht
    refine ⟨setNullCategory cid t, List.mem_map_of_mem _ ht, ?_⟩
    unfold setNullCategory
    by_cases hc : t.category = some cid
    · rw [if_pos hc, if_pos hc]
      exact ⟨rfl, rfl, rfl, rfl, rfl, rfl⟩
    · rw [if_neg hc, if_neg hc]
      exact ⟨rfl, rfl, rfl, rfl, rfl, rfl⟩
  · intro c
    constructor
    · intro hcm
      obtain ⟨hm, hne⟩ := List.mem_filter.1 hcm
      exact ⟨hm, by simpa using hne⟩
    · rintro ⟨hm, hne⟩
      exact List.mem_filter.2 ⟨hm, by simpa using hne⟩

/-- Witness for C7: deleting category 1 keeps `titleB` with its fields
intact and its category reference nulled. -/
theorem delete_category_set_null_witness :
    ∃ u ∈ (deleteCategory dbCat 1).titles,
      u.id = titleB.id ∧ u.name = titleB.name ∧ u.year = titleB.year ∧
      u.description = titleB.description ∧ u.genre = titleB.genre ∧
      u.category = (if titleB.category = some 1 then none else titleB.category) :=
  (delete_category_set_null dbCat 1).2.1 titleB (by decide)

/-- C8: in every reachable state each review references an existing title
and each comment an existing review (the cascades never leave orphans), and
deletion cascades along the chain: after `deleteTitle` no review of that
title survives, after `deleteReview` no comment on that review survives. -/
theorem cascade_delete_chain (db : DB) (h : Reachable db) :
    (∀ r ∈ db.reviews, ∃ t ∈ db.titles, t.id = r.title) ∧
    (∀ c ∈ db.comments, ∃ r ∈ db.reviews, r.id = c.review) ∧
    (∀ tid, ∀ r ∈ (deleteTitle db tid).reviews, r.title ≠ tid) ∧
    (∀ rid, ∀ c ∈ (deleteReview db rid).comments, c.review ≠ rid) := by
  obtain ⟨h1, h2, h3, h4, h5⟩ := reachable_inv h
  refine ⟨h4, h5, ?_, ?_⟩
  · intro tid r hr
    have hrt := (List.mem_filter.1 hr).2
    simpa using hrt
  · intro rid c hc
    have hcr := (List.mem_filter.1 hc).2
    simpa using hcr

/-- Witness for C8: in the reachable state with a comment, the comment's
review exists. -/
theorem cascade_delete_chain_witness :
    ∃ r ∈ dbTRC.reviews, r.id = commentA.review :=
  (cascade_delete_chain dbTRC dbTRC_reachable).2.1 commentA (by decide)

/-- C9: `Title.year` is a `PositiveIntegerField`, so every negative year
value is rejected by validation with the non-negativity message, whatever
the captured upper bound is. -/
theorem title_year_rejects_negative (yearAtImport y : Int) (h : y < 0) :
    validateTitleYear (titleYearField yearAtImport) y =
      Except.error positiveFieldMsg := by
  unfold validateTitleYear
  rw [if_pos h]

/-- Witness for C9: year -1 is rejected. -/
theorem title_year_rejects_negative_witness :
    validateTitleYear (titleYearField 2026) (-1) =
      Except.error positiveFieldMsg :=
  title_year_rejects_negative 2026 (-1) (by decide)

/-- C10: the upper bound of `Title.year` validation is the year captured
when the model class was defined (module import): validation gives the same
result whatever the calendar year at validation time is, and it accepts
exactly the years in [0, captured bound]. -/
theorem year_bound_captured_at_import (yearAtImport now1 now2 y : Int) :
    validateTitleYearAt (titleYearField yearAtImport) now1 y =
      validateTitleYearAt (titleYearField yearAtImport) now2 y ∧
    (validateTitleYearAt (titleYearField yearAtImport) now1 y = Except.ok () ↔
      0 ≤ y ∧ y ≤ yearAtImport) :=
  ⟨rfl, validateTitleYear_ok_iff yearAtImport y⟩

/-- Witness for C10: a model imported in 2025 still accepts year 2025 when
validation runs in 2026 — the bound stayed at the import-time year. -/
theorem year_bound_captured_at_import_witness :
    validateTitleYearAt (titleYearField 2025) 2026 2025 = Except.ok () :=
  (year_bound_captured_at_import 2025 2026 2026 2025).2.mpr (by decide)

end YaMDb
